import Mathlib

/-!
Verification of `controllers/attestation_controller_command.go`.

The Go file is embedded shallowly: each external collaborator
(`rest.InClusterConfig`, `clientcmd.BuildConfigFromFlags`,
`kubernetes.NewForConfig`, `rest.RESTClientFor`, `core_v1.AddToScheme`,
`remotecommand.NewSPDYExecutor`, `Executor.StreamWithContext`, `os.Getenv`)
becomes a field of an `Env` record, Go errors become their message strings,
and nilable pointers become `Option`.  Every embedded function additionally
returns the list of external calls it performed (`List Step`), so that
"never attempted" / "before any network contact" statements can be made
about the control flow of the source.
-/

set_option autoImplicit false

namespace AttestationController

/-- Go errors are modelled by their message strings (`fmt.Errorf` output). -/
abbrev Err := String

/-- Opaque model of `*rest.Config`; the code never inspects its fields. -/
structure RestConfig where
  tag : Nat
  deriving DecidableEq, Repr

/-- Opaque model of `*kubernetes.Clientset`. -/
structure Clientset where
  tag : Nat
  deriving DecidableEq, Repr

/-- Model of `rest.RESTClient`; the zero value `&rest.RESTClient{}` is `{}`. -/
structure RESTClient where
  base : Nat := 0
  deriving DecidableEq, Repr

/-- The zero-value client `&rest.RESTClient{}` returned by `GetRESTClient` on failure. -/
def emptyRESTClient : RESTClient := {}

/-- Opaque model of the `remotecommand.Executor` produced by `NewSPDYExecutor`. -/
structure Executor where
  tag : Nat
  deriving DecidableEq, Repr

/-- Model of a Go `context.Context` as far as this code observes it: whether the
cancellation signal has fired. -/
structure Context where
  cancelled : Bool
  deriving DecidableEq, Repr

/-- `context.Background()`: the empty context, whose cancellation signal never fires. -/
def contextBackground : Context := { cancelled := false }

/-- The request built by
`clientset.CoreV1().RESTClient().Get().Resource("pods").Namespace(namespace)`;
`req.URL()` is identified with the request data itself. -/
structure Request where
  method : String
  resource : String
  ns : String
  deriving DecidableEq, Repr

/-- Model of `remotecommand.StreamOptions` (the two output sinks are the
in-memory buffers of the call and are represented by the stream outcome). -/
structure StreamOptions where
  stdin : Option String
  tty : Bool
  deriving DecidableEq, Repr

/-! ### `path/filepath.Join` (Unix), needed for the kubeconfig fallback path -/

/-- Split a character list on `/` (model of splitting a Unix path into segments). -/
def splitSlash : List Char → List (List Char)
  | [] => [[]]
  | c :: cs =>
    if c = '/' then [] :: splitSlash cs
    else
      match splitSlash cs with
      | [] => [[c]]
      | s :: rest => (c :: s) :: rest

/-- Join character-list segments with `/`. -/
def joinSlash : List (List Char) → List Char
  | [] => []
  | [s] => s
  | s :: rest => s ++ '/' :: joinSlash rest

/-- Core of Go `filepath.Clean`: process the non-empty, non-`.` segments,
resolving `..` against the accumulated stack (`acc` is kept reversed). -/
def cleanAcc (rooted : Bool) : List (List Char) → List (List Char) → List (List Char)
  | acc, [] => acc.reverse
  | acc, s :: rest =>
    if s = ['.', '.'] then
      match acc with
      | [] =>
        if rooted then cleanAcc rooted [] rest
        else cleanAcc rooted [['.', '.']] rest
      | t :: acc2 =>
        if t = ['.', '.'] then cleanAcc rooted (s :: t :: acc2) rest
        else cleanAcc rooted acc2 rest
    else cleanAcc rooted (s :: acc) rest

/-- Go `path/filepath.Clean` for Unix separators. -/
def goClean (path : String) : String :=
  if path.data = [] then "."
  else
    let rooted := path.data.head? = some '/'
    let segs := (splitSlash path.data).filter
      (fun s => decide (s ≠ []) && decide (s ≠ ['.']))
    let segs2 := cleanAcc rooted [] segs
    if rooted then ⟨'/' :: joinSlash segs2⟩
    else if segs2 = [] then "."
    else ⟨joinSlash segs2⟩

/-- Go `path/filepath.Join` for Unix separators: drop empty elements, join the
rest with `/`, and `Clean` the result (`""` when every element is empty). -/
def goFilepathJoin (elems : List String) : String :=
  match elems.filter (fun s => decide (s ≠ "")) with
  | [] => ""
  | nonempty => goClean ⟨joinSlash (nonempty.map String.data)⟩

/-- `os.Getenv`: an unset variable reads as the empty string. -/
def osGetenv (v : Option String) : String := v.getD ""

/-! ### The environment of external collaborators -/

/-- One record collecting the behavior, for this process and call, of every
external function the Go file invokes.  Each field returns what the
corresponding collaborator would return. -/
structure Env where
  /-- The value of the `HOME` environment variable (`none` = unset). -/
  home : Option String
  /-- Result of `rest.InClusterConfig()`. -/
  inClusterConfig : Option RestConfig × Option Err
  /-- Result of `clientcmd.BuildConfigFromFlags(masterUrl, kubeconfigPath)`. -/
  buildConfigFromFlags : String → String → Option RestConfig × Option Err
  /-- Result of `kubernetes.NewForConfig(config)`. -/
  newForConfig : Option RestConfig → Option Clientset × Option Err
  /-- Result of `rest.RESTClientFor(config)`. -/
  restClientFor : Option RestConfig → Option RESTClient × Option Err
  /-- Result of `core_v1.AddToScheme(scheme)` (`none` = success). -/
  addToScheme : Option Err
  /-- Result of `remotecommand.NewSPDYExecutor(config, method, url)`. -/
  newSPDYExecutor : Option RestConfig → String → Request → Option Executor × Option Err
  /-- Result of `exec.StreamWithContext(ctx, opts)`: the bytes the session wrote
  into the stdout buffer, the bytes it wrote into the stderr buffer, and the
  returned error. -/
  stream : Option Executor → Context → StreamOptions → String × String × Option Err

/-- The external calls a run performs, in order: the effect trace. -/
inductive Step where
  | inCluster
  | buildConfig (kubeconfig : String)
  | newForConfig
  | restClientFor
  | requestConstructed (resource ns : String)
  | addToScheme
  | newSPDYExecutor (method : String) (req : Request)
  | stream (ctx : Context) (opts : StreamOptions)
  deriving DecidableEq, Repr

/-- Go `fmt` verb `%v` applied to an `error` value: `nil` prints as `<nil>`. -/
def fmtErr : Option Err → String
  | none => "<nil>"
  | some e => e

/-- The aggregated message produced by `GetClusterClientConfig` when both
fallback methods fail (the `fmt.Errorf` format string of line 46). -/
def aggMsg (err1 err2 : Err) : Err :=
  "InClusterConfig as well as BuildConfigFromFlags Failed. Error in InClusterConfig: "
    ++ err1 ++ "\nError in BuildConfigFromFlags: " ++ err2

/-! ### The embedded functions -/

/-- `GetClusterClientConfig`: try `rest.InClusterConfig()`; on failure fall back
to `clientcmd.BuildConfigFromFlags("", $HOME/.kube/config)`; if that also fails
return `nil` and the aggregated error. -/
def GetClusterClientConfig (env : Env) : (Option RestConfig × Option Err) × List Step :=
  match env.inClusterConfig with
  | (config, none) => ((config, none), [Step.inCluster])
  | (_, some err1) =>
    let kubeconfig := goFilepathJoin [osGetenv env.home, ".kube", "config"]
    match env.buildConfigFromFlags "" kubeconfig with
    | (config, none) => ((config, none), [Step.inCluster, Step.buildConfig kubeconfig])
    | (_, some err2) =>
      ((none, some (aggMsg err1 err2)), [Step.inCluster, Step.buildConfig kubeconfig])

/-- `GetClientsetFromClusterConfig`: wrap `kubernetes.NewForConfig`,
returning `nil` and a wrapped error on failure. -/
def GetClientsetFromClusterConfig (env : Env) (config : Option RestConfig) :
    (Option Clientset × Option Err) × List Step :=
  match env.newForConfig config with
  | (clientset, none) => ((clientset, none), [Step.newForConfig])
  | (_, some e) =>
    ((none, some ("failed creating clientset. Error: " ++ e)), [Step.newForConfig])

/-- `GetClusterClientset`: resolve a config, then build a clientset from it. -/
def GetClusterClientset (env : Env) : (Option Clientset × Option Err) × List Step :=
  match GetClusterClientConfig env with
  | ((_, some e), t1) => ((none, some e), t1)
  | ((config, none), t1) =>
    match GetClientsetFromClusterConfig env config with
    | (r, t2) => (r, t1 ++ t2)

/-- `GetRESTClient`: resolve a config; on failure return the NON-nil zero value
`&rest.RESTClient{}` together with the error; otherwise `rest.RESTClientFor`. -/
def GetRESTClient (env : Env) : (Option RESTClient × Option Err) × List Step :=
  match GetClusterClientConfig env with
  | ((_, some e), t1) => ((some emptyRESTClient, some e), t1)
  | ((config, none), t1) =>
    match env.restClientFor config with
    | (client, e) => ((client, e), t1 ++ [Step.restClientFor])

/-- `PodList namespace stdin`: resolve config, build clientset, construct the
`pods` GET request, register the scheme, create the SPDY executor, and stream
with `context.Background()`; returns (stdout, stderr, error). -/
def PodList (env : Env) (ns : String) (stdin : Option String) :
    (String × String × Option Err) × List Step :=
  match GetClusterClientConfig env with
  | ((_, some err), t1) => (("", "", some err), t1)
  | ((none, none), t1) => (("", "", some "nil config"), t1)
  | ((some config, none), t1) =>
    match GetClientsetFromClusterConfig env (some config) with
    | ((_, some err), t2) => (("", "", some err), t1 ++ t2)
    | ((none, none), t2) => (("", "", some "nil clientset"), t1 ++ t2)
    | ((some _clientset, none), t2) =>
      let req : Request := { method := "GET", resource := "pods", ns := ns }
      let t3 := t1 ++ t2 ++ [Step.requestConstructed "pods" ns]
      match env.addToScheme with
      | some e =>
        (("", "", some ("error adding to scheme: " ++ e)), t3 ++ [Step.addToScheme])
      | none =>
        match env.newSPDYExecutor (some config) "GET" req with
        | (_, some _spdyerr) =>
          -- the source formats the outer `err` variable, which is nil here
          -- (its last assignment succeeded), not `spdyerr`: the cause is lost
          (("", "", some ("error while creating Executor: " ++ fmtErr none)),
           t3 ++ [Step.addToScheme, Step.newSPDYExecutor "GET" req])
        | (exec, none) =>
          let opts : StreamOptions := { stdin := stdin, tty := false }
          let t4 := t3 ++ [Step.addToScheme, Step.newSPDYExecutor "GET" req,
                           Step.stream contextBackground opts]
          match env.stream exec contextBackground opts with
          | (_, _, some e) => (("", "", some ("error in Stream: " ++ e)), t4)
          | (stdoutStr, stderrStr, none) => ((stdoutStr, stderrStr, none), t4)

/-! ### Concrete environments used by witnesses and counterexamples -/

/-- Environment in which in-cluster discovery succeeds (for the C3 witness);
the file fallback collaborator would fail if it were ever consulted. -/
def envC3 : Env where
  home := some "/root"
  inClusterConfig := (some ⟨1⟩, none)
  buildConfigFromFlags := fun _ _ => (none, some "must not be consulted")
  newForConfig := fun _ => (some ⟨2⟩, none)
  restClientFor := fun _ => (some {}, none)
  addToScheme := none
  newSPDYExecutor := fun _ _ _ => (some ⟨3⟩, none)
  stream := fun _ _ _ => ("", "", none)

/-- Environment in which both resolution methods fail (for the C4 witness). -/
def envC4 : Env where
  home := some "/root"
  inClusterConfig := (none, some "not in cluster")
  buildConfigFromFlags := fun _ _ => (none, some "stat /root/.kube/config: no such file")
  newForConfig := fun _ => (none, some "unreached")
  restClientFor := fun _ => (none, some "unreached")
  addToScheme := none
  newSPDYExecutor := fun _ _ _ => (none, some "unreached")
  stream := fun _ _ _ => ("", "", none)

/-- Environment in which every phase up to and including streaming succeeds,
the session writing `hello` and a newline to stdout (C6 witness, C1 witness). -/
def envHappy : Env where
  home := some "/root"
  inClusterConfig := (some ⟨1⟩, none)
  buildConfigFromFlags := fun _ _ => (none, some "unreached")
  newForConfig := fun _ => (some ⟨2⟩, none)
  restClientFor := fun _ => (some {}, none)
  addToScheme := none
  newSPDYExecutor := fun _ _ _ => (some ⟨3⟩, none)
  stream := fun _ _ _ => ("hello\n", "", none)

/-- Environment whose streaming phase succeeds until the underlying transport
reports cancellation of its context (C1 counterexample). -/
def envC1cancel : Env where
  home := some "/root"
  inClusterConfig := (some ⟨1⟩, none)
  buildConfigFromFlags := fun _ _ => (none, some "unreached")
  newForConfig := fun _ => (some ⟨2⟩, none)
  restClientFor := fun _ => (some {}, none)
  addToScheme := none
  newSPDYExecutor := fun _ _ _ => (some ⟨3⟩, none)
  stream := fun _ _ _ => ("", "", some "context canceled")

/-- Environment in which config and clientset succeed but SPDY executor
creation fails with a concrete cause (C2 failing input). -/
def envC2 : Env where
  home := some "/root"
  inClusterConfig := (some ⟨1⟩, none)
  buildConfigFromFlags := fun _ _ => (none, some "unreached")
  newForConfig := fun _ => (some ⟨2⟩, none)
  restClientFor := fun _ => (some {}, none)
  addToScheme := none
  newSPDYExecutor := fun _ _ _ => (none, some "spdy upgrade rejected: tls handshake failure")
  stream := fun _ _ _ => ("", "", none)

/-- Environment whose streaming phase fails after the session wrote partial
bytes to the stdout buffer (C5 witness). -/
def envC5 : Env where
  home := some "/root"
  inClusterConfig := (some ⟨1⟩, none)
  buildConfigFromFlags := fun _ _ => (none, some "unreached")
  newForConfig := fun _ => (some ⟨2⟩, none)
  restClientFor := fun _ => (some {}, none)
  addToScheme := none
  newSPDYExecutor := fun _ _ _ => (some ⟨3⟩, none)
  stream := fun _ _ _ => ("partial out", "partial err", some "connection reset by peer")

/-- Environment in which scheme registration fails (C7 witness). -/
def envC7 : Env where
  home := some "/root"
  inClusterConfig := (some ⟨1⟩, none)
  buildConfigFromFlags := fun _ _ => (none, some "unreached")
  newForConfig := fun _ => (some ⟨2⟩, none)
  restClientFor := fun _ => (some {}, none)
  addToScheme := some "scheme registration refused"
  newSPDYExecutor := fun _ _ _ => (none, some "unreached")
  stream := fun _ _ _ => ("", "", none)

/-- Environment in which in-cluster discovery yields a nil config and nil
error (C8 witness, first arm). -/
def envC8nilConfig : Env where
  home := some "/root"
  inClusterConfig := (none, none)
  buildConfigFromFlags := fun _ _ => (none, some "unreached")
  newForConfig := fun _ => (none, some "unreached")
  restClientFor := fun _ => (none, some "unreached")
  addToScheme := none
  newSPDYExecutor := fun _ _ _ => (none, some "unreached")
  stream := fun _ _ _ => ("", "", none)

/-- Environment in which the clientset factory yields a nil clientset and nil
error (C8 witness, second arm). -/
def envC8nilClientset : Env where
  home := some "/root"
  inClusterConfig := (some ⟨1⟩, none)
  buildConfigFromFlags := fun _ _ => (none, some "unreached")
  newForConfig := fun _ => (none, none)
  restClientFor := fun _ => (none, some "unreached")
  addToScheme := none
  newSPDYExecutor := fun _ _ _ => (none, some "unreached")
  stream := fun _ _ _ => ("", "", none)

/-- Environment in which credential resolution fails (C9 witness). -/
def envC9 : Env where
  home := some "/root"
  inClusterConfig := (none, some "no service account token")
  buildConfigFromFlags := fun _ _ => (none, some "kubeconfig unreadable")
  newForConfig := fun _ => (none, some "bad config")
  restClientFor := fun _ => (none, some "unreached")
  addToScheme := none
  newSPDYExecutor := fun _ _ _ => (none, some "unreached")
  stream := fun _ _ _ => ("", "", none)

/-- Environment with `HOME` unset and failing in-cluster discovery
(C10 witness). -/
def envC10 : Env where
  home := none
  inClusterConfig := (none, some "not in cluster")
  buildConfigFromFlags := fun _ _ => (none, some "no kubeconfig")
  newForConfig := fun _ => (none, some "unreached")
  restClientFor := fun _ => (none, some "unreached")
  addToScheme := none
  newSPDYExecutor := fun _ _ _ => (none, some "unreached")
  stream := fun _ _ _ => ("", "", none)

/-! ### Claims about the credential resolver -/

/-- C3: when in-cluster discovery succeeds (returns no error), its config is
returned immediately, the kubeconfig-file fallback is never attempted, and
each method appears at most once in the call trace. -/
theorem C3_inCluster_short_circuits (env : Env) (h : env.inClusterConfig.2 = none) :
    GetClusterClientConfig env = ((env.inClusterConfig.1, none), [Step.inCluster])
    ∧ (∀ p, Step.buildConfig p ∉ (GetClusterClientConfig env).2)
    ∧ (GetClusterClientConfig env).2.count Step.inCluster ≤ 1 := by
  rcases hic : env.inClusterConfig with ⟨c, e⟩
  rw [hic] at h
  simp only at h
  subst h
  simp [GetClusterClientConfig, hic]

/-- Witness for C3 at a concrete environment. -/
theorem C3_inCluster_short_circuits_witness :
    envC3.inClusterConfig.2 = none
    ∧ (GetClusterClientConfig envC3 = ((envC3.inClusterConfig.1, none), [Step.inCluster])
        ∧ (∀ p, Step.buildConfig p ∉ (GetClusterClientConfig envC3).2)
        ∧ (GetClusterClientConfig envC3).2.count Step.inCluster ≤ 1) :=
  ⟨rfl, C3_inCluster_short_circuits envC3 rfl⟩

/-- C4: when both in-cluster discovery and the file fallback fail, the resolver
returns no config together with the single aggregated error, whose text
contains both underlying messages and names both the `InClusterConfig` path
and the `BuildConfigFromFlags` path. -/
theorem C4_both_fail_aggregated (env : Env) (c1 c2 : Option RestConfig) (e1 e2 : Err)
    (hic : env.inClusterConfig = (c1, some e1))
    (hbc : env.buildConfigFromFlags ""
      (goFilepathJoin [osGetenv env.home, ".kube", "config"]) = (c2, some e2)) :
    (GetClusterClientConfig env).1 = (none, some (aggMsg e1 e2))
    ∧ e1.data <:+: (aggMsg e1 e2).data
    ∧ e2.data <:+: (aggMsg e1 e2).data
    ∧ ("InClusterConfig").data <:+: (aggMsg e1 e2).data
    ∧ ("BuildConfigFromFlags").data <:+: (aggMsg e1 e2).data := by
  refine ⟨by simp [GetClusterClientConfig, hic, hbc], ?_, ?_, ?_, ?_⟩
  · refine ⟨("InClusterConfig as well as BuildConfigFromFlags Failed. Error in InClusterConfig: " : String).data,
      (("\nError in BuildConfigFromFlags: " : String) ++ e2).data, ?_⟩
    simp [aggMsg, String.data_append, List.append_assoc]
  · refine ⟨(("InClusterConfig as well as BuildConfigFromFlags Failed. Error in InClusterConfig: " : String)
        ++ e1 ++ "\nError in BuildConfigFromFlags: ").data, [], ?_⟩
    simp [aggMsg, String.data_append, List.append_assoc]
  · have hsplit :
        ("InClusterConfig as well as BuildConfigFromFlags Failed. Error in InClusterConfig: " : String)
        = ("InClusterConfig" : String)
          ++ " as well as BuildConfigFromFlags Failed. Error in InClusterConfig: " := by decide
    refine ⟨[], ((" as well as BuildConfigFromFlags Failed. Error in InClusterConfig: " : String)
        ++ e1 ++ "\nError in BuildConfigFromFlags: " ++ e2).data, ?_⟩
    simp [aggMsg, hsplit, String.data_append, List.append_assoc]
  · have hsplit :
        ("InClusterConfig as well as BuildConfigFromFlags Failed. Error in InClusterConfig: " : String)
        = ("InClusterConfig as well as " : String)
          ++ "BuildConfigFromFlags" ++ " Failed. Error in InClusterConfig: " := by decide
    refine ⟨("InClusterConfig as well as " : String).data,
      ((" Failed. Error in InClusterConfig: " : String)
        ++ e1 ++ "\nError in BuildConfigFromFlags: " ++ e2).data, ?_⟩
    simp [aggMsg, hsplit, String.data_append, List.append_assoc]

/-- Witness for C4 at a concrete environment. -/
theorem C4_both_fail_aggregated_witness :
    envC4.inClusterConfig = (none, some "not in cluster")
    ∧ envC4.buildConfigFromFlags ""
        (goFilepathJoin [osGetenv envC4.home, ".kube", "config"])
        = (none, some "stat /root/.kube/config: no such file")
    ∧ ((GetClusterClientConfig envC4).1
        = (none, some (aggMsg "not in cluster" "stat /root/.kube/config: no such file"))
      ∧ ("not in cluster" : Err).data
          <:+: (aggMsg "not in cluster" "stat /root/.kube/config: no such file").data
      ∧ ("stat /root/.kube/config: no such file" : Err).data
          <:+: (aggMsg "not in cluster" "stat /root/.kube/config: no such file").data
      ∧ ("InClusterConfig").data
          <:+: (aggMsg "not in cluster" "stat /root/.kube/config: no such file").data
      ∧ ("BuildConfigFromFlags").data
          <:+: (aggMsg "not in cluster" "stat /root/.kube/config: no such file").data) :=
  ⟨rfl, rfl, C4_both_fail_aggregated envC4 none none
    "not in cluster" "stat /root/.kube/config: no such file" rfl rfl⟩

/-- C9: when credential resolution fails, `GetRESTClient` returns the non-nil
zero-value client together with the error, whereas `GetClusterClientset`
returns a nil clientset with the error, and `GetClientsetFromClusterConfig`
returns a nil clientset whenever its underlying constructor fails. -/
theorem C9_restclient_nonnil_on_failure (env : Env) (e : Err)
    (h : (GetClusterClientConfig env).1.2 = some e) :
    (GetRESTClient env).1 = (some emptyRESTClient, some e)
    ∧ (GetRESTClient env).1.1 ≠ none
    ∧ (GetClusterClientset env).1 = (none, some e)
    ∧ (∀ cfg e2, (env.newForConfig cfg).2 = some e2 →
        (GetClientsetFromClusterConfig env cfg).1.1 = none) := by
  rcases hg : GetClusterClientConfig env with ⟨⟨c, er⟩, tr⟩
  rw [hg] at h
  simp only at h
  subst h
  refine ⟨by simp [GetRESTClient, hg], by simp [GetRESTClient, hg],
    by simp [GetClusterClientset, hg], ?_⟩
  intro cfg e2 h2
  rcases hn : env.newForConfig cfg with ⟨cs, en⟩
  rw [hn] at h2
  simp only at h2
  subst h2
  simp [GetClientsetFromClusterConfig, hn]

/-- Witness for C9 at a concrete environment. -/
theorem C9_restclient_nonnil_on_failure_witness :
    (GetClusterClientConfig envC9).1.2
        = some (aggMsg "no service account token" "kubeconfig unreadable")
    ∧ ((GetRESTClient envC9).1
        = (some emptyRESTClient,
           some (aggMsg "no service account token" "kubeconfig unreadable"))
      ∧ (GetRESTClient envC9).1.1 ≠ none
      ∧ (GetClusterClientset envC9).1
        = (none, some (aggMsg "no service account token" "kubeconfig unreadable"))
      ∧ (∀ cfg e2, (envC9.newForConfig cfg).2 = some e2 →
          (GetClientsetFromClusterConfig envC9 cfg).1.1 = none)) :=
  ⟨rfl, C9_restclient_nonnil_on_failure envC9
    (aggMsg "no service account token" "kubeconfig unreadable") rfl⟩

/-- C10: the kubeconfig fallback path is the join of the `HOME` environment
variable with `.kube` and `config`; when `HOME` is unset or empty and
in-cluster discovery has failed, the fallback is attempted against the
relative path `.kube/config`. -/
theorem C10_kubeconfig_path_from_home (env : Env) (e1 : Err)
    (h1 : env.inClusterConfig.2 = some e1)
    (h2 : env.home = none ∨ env.home = some "") :
    goFilepathJoin [osGetenv env.home, ".kube", "config"] = ".kube/config"
    ∧ Step.buildConfig ".kube/config" ∈ (GetClusterClientConfig env).2 := by
  have hpath : osGetenv env.home = "" := by
    rcases h2 with h | h <;> simp [osGetenv, h]
  have hj : goFilepathJoin [osGetenv env.home, ".kube", "config"] = ".kube/config" := by
    rw [hpath]
    decide
  refine ⟨hj, ?_⟩
  rcases hic : env.inClusterConfig with ⟨c, er⟩
  rw [hic] at h1
  simp only at h1
  subst h1
  rcases hbc : env.buildConfigFromFlags "" ".kube/config" with ⟨c2, er2⟩
  have hbc2 : env.buildConfigFromFlags ""
      (goFilepathJoin [osGetenv env.home, ".kube", "config"]) = (c2, er2) := by
    rw [hj]
    exact hbc
  cases er2 <;> simp [GetClusterClientConfig, hic, hbc2, hbc, hj]

/-- Witness for C10 at a concrete environment with `HOME` unset. -/
theorem C10_kubeconfig_path_from_home_witness :
    envC10.inClusterConfig.2 = some "not in cluster"
    ∧ (envC10.home = none ∨ envC10.home = some "")
    ∧ (goFilepathJoin [osGetenv envC10.home, ".kube", "config"] = ".kube/config"
      ∧ Step.buildConfig ".kube/config" ∈ (GetClusterClientConfig envC10).2) :=
  ⟨rfl, Or.inl rfl,
   C10_kubeconfig_path_from_home envC10 "not in cluster" rfl (Or.inl rfl)⟩

/-! ### Claims about the remote executor (`PodList`) -/

/-- C5: when the streaming phase fails mid-session, `PodList` returns empty
stdout and stderr strings plus an error wrapping the stream cause; whatever
partial bytes the session had accumulated (`so`, `se`) are discarded. -/
theorem C5_stream_failure_discards_partial (env : Env) (ns : String)
    (stdin : Option String) (c : RestConfig) (cs : Clientset)
    (exec : Option Executor) (so se : String) (e : Err)
    (hic : env.inClusterConfig = (some c, none))
    (hnfc : env.newForConfig (some c) = (some cs, none))
    (hats : env.addToScheme = none)
    (hspdy : env.newSPDYExecutor (some c) "GET"
      { method := "GET", resource := "pods", ns := ns } = (exec, none))
    (hstream : env.stream exec contextBackground { stdin := stdin, tty := false }
      = (so, se, some e)) :
    (PodList env ns stdin).1 = ("", "", some ("error in Stream: " ++ e)) := by
  simp [PodList, GetClusterClientConfig, GetClientsetFromClusterConfig,
    hic, hnfc, hats, hspdy, hstream]

/-- Witness for C5: partial bytes on both streams followed by a dropped
connection yield empty outputs and the stream error. -/
theorem C5_stream_failure_discards_partial_witness :
    envC5.inClusterConfig = (some ⟨1⟩, none)
    ∧ envC5.newForConfig (some ⟨1⟩) = (some ⟨2⟩, none)
    ∧ envC5.addToScheme = none
    ∧ envC5.newSPDYExecutor (some ⟨1⟩) "GET"
        { method := "GET", resource := "pods", ns := "default" } = (some ⟨3⟩, none)
    ∧ envC5.stream (some ⟨3⟩) contextBackground { stdin := none, tty := false }
        = ("partial out", "partial err", some "connection reset by peer")
    ∧ (PodList envC5 "default" none).1
        = ("", "", some ("error in Stream: " ++ "connection reset by peer")) :=
  ⟨rfl, rfl, rfl, rfl, rfl,
   C5_stream_failure_discards_partial envC5 "default" none ⟨1⟩ ⟨2⟩ (some ⟨3⟩)
     "partial out" "partial err" "connection reset by peer" rfl rfl rfl rfl rfl⟩

/-- C6: when the streaming session ends cleanly, `PodList` returns exactly the
bytes the session wrote to the stdout buffer and to the stderr buffer, as two
separate strings, with no error. -/
theorem C6_clean_session_returns_both_streams (env : Env) (ns : String)
    (stdin : Option String) (c : RestConfig) (cs : Clientset)
    (exec : Option Executor) (so se : String)
    (hic : env.inClusterConfig = (some c, none))
    (hnfc : env.newForConfig (some c) = (some cs, none))
    (hats : env.addToScheme = none)
    (hspdy : env.newSPDYExecutor (some c) "GET"
      { method := "GET", resource := "pods", ns := ns } = (exec, none))
    (hstream : env.stream exec contextBackground { stdin := stdin, tty := false }
      = (so, se, none)) :
    (PodList env ns stdin).1 = (so, se, none) := by
  simp [PodList, GetClusterClientConfig, GetClientsetFromClusterConfig,
    hic, hnfc, hats, hspdy, hstream]

/-- Witness for C6: a session emitting `hello` plus newline on stdout and
nothing on stderr yields exactly that pair and no error. -/
theorem C6_clean_session_returns_both_streams_witness :
    envHappy.inClusterConfig = (some ⟨1⟩, none)
    ∧ envHappy.newForConfig (some ⟨1⟩) = (some ⟨2⟩, none)
    ∧ envHappy.addToScheme = none
    ∧ envHappy.newSPDYExecutor (some ⟨1⟩) "GET"
        { method := "GET", resource := "pods", ns := "default" } = (some ⟨3⟩, none)
    ∧ envHappy.stream (some ⟨3⟩) contextBackground { stdin := none, tty := false }
        = ("hello\n", "", none)
    ∧ (PodList envHappy "default" none).1 = ("hello\n", "", none) :=
  ⟨rfl, rfl, rfl, rfl, rfl,
   C6_clean_session_returns_both_streams envHappy "default" none ⟨1⟩ ⟨2⟩ (some ⟨3⟩)
     "hello\n" "" rfl rfl rfl rfl rfl⟩

/-- C7: when scheme registration fails, `PodList` returns an error wrapping
the registration cause, and neither the SPDY executor creation nor the
streaming phase is ever attempted. -/
theorem C7_scheme_failure_before_upgrade (env : Env) (ns : String)
    (stdin : Option String) (c : RestConfig) (cs : Clientset) (e : Err)
    (hic : env.inClusterConfig = (some c, none))
    (hnfc : env.newForConfig (some c) = (some cs, none))
    (hats : env.addToScheme = some e) :
    PodList env ns stdin
      = (("", "", some ("error adding to scheme: " ++ e)),
         [Step.inCluster, Step.newForConfig,
          Step.requestConstructed "pods" ns, Step.addToScheme])
    ∧ (∀ m r, Step.newSPDYExecutor m r ∉ (PodList env ns stdin).2)
    ∧ (∀ ctx opts, Step.stream ctx opts ∉ (PodList env ns stdin).2) := by
  have hred : PodList env ns stdin
      = (("", "", some ("error adding to scheme: " ++ e)),
         [Step.inCluster, Step.newForConfig,
          Step.requestConstructed "pods" ns, Step.addToScheme]) := by
    simp [PodList, GetClusterClientConfig, GetClientsetFromClusterConfig,
      hic, hnfc, hats]
  refine ⟨hred, ?_, ?_⟩ <;> intro a b <;> rw [hred] <;> simp

/-- Witness for C7 at a concrete environment. -/
theorem C7_scheme_failure_before_upgrade_witness :
    envC7.inClusterConfig = (some ⟨1⟩, none)
    ∧ envC7.newForConfig (some ⟨1⟩) = (some ⟨2⟩, none)
    ∧ envC7.addToScheme = some "scheme registration refused"
    ∧ (PodList envC7 "default" none
        = (("", "", some ("error adding to scheme: " ++ "scheme registration refused")),
           [Step.inCluster, Step.newForConfig,
            Step.requestConstructed "pods" "default", Step.addToScheme])
      ∧ (∀ m r, Step.newSPDYExecutor m r ∉ (PodList envC7 "default" none).2)
      ∧ (∀ ctx opts, Step.stream ctx opts ∉ (PodList envC7 "default" none).2)) :=
  ⟨rfl, rfl, rfl,
   C7_scheme_failure_before_upgrade envC7 "default" none ⟨1⟩ ⟨2⟩
     "scheme registration refused" rfl rfl rfl⟩

/-- C8: a nil resolved config, or a nil constructed clientset, makes `PodList`
fail fast with empty outputs and a descriptive error, before the request is
constructed and before the SPDY upgrade or streaming is attempted. -/
theorem C8_nil_config_or_clientset_fail_fast (env : Env) (ns : String)
    (stdin : Option String) :
    (env.inClusterConfig = (none, none) →
      PodList env ns stdin = (("", "", some "nil config"), [Step.inCluster])
      ∧ (∀ r n, Step.requestConstructed r n ∉ (PodList env ns stdin).2)
      ∧ (∀ m r, Step.newSPDYExecutor m r ∉ (PodList env ns stdin).2)
      ∧ (∀ ctx opts, Step.stream ctx opts ∉ (PodList env ns stdin).2))
    ∧ (∀ c, env.inClusterConfig = (some c, none) →
        env.newForConfig (some c) = (none, none) →
      PodList env ns stdin
        = (("", "", some "nil clientset"), [Step.inCluster, Step.newForConfig])
      ∧ (∀ r n, Step.requestConstructed r n ∉ (PodList env ns stdin).2)
      ∧ (∀ m r, Step.newSPDYExecutor m r ∉ (PodList env ns stdin).2)
      ∧ (∀ ctx opts, Step.stream ctx opts ∉ (PodList env ns stdin).2)) := by
  constructor
  · intro hic
    have hred : PodList env ns stdin
        = (("", "", some "nil config"), [Step.inCluster]) := by
      simp [PodList, GetClusterClientConfig, hic]
    refine ⟨hred, ?_, ?_, ?_⟩ <;> intro a b <;> rw [hred] <;> simp
  · intro c hic hnfc
    have hred : PodList env ns stdin
        = (("", "", some "nil clientset"), [Step.inCluster, Step.newForConfig]) := by
      simp [PodList, GetClusterClientConfig, GetClientsetFromClusterConfig, hic, hnfc]
    refine ⟨hred, ?_, ?_, ?_⟩ <;> intro a b <;> rw [hred] <;> simp

/-- Witness for C8 exercising both arms at concrete environments. -/
theorem C8_nil_config_or_clientset_fail_fast_witness :
    (envC8nilConfig.inClusterConfig = (none, none)
      ∧ PodList envC8nilConfig "default" none
        = (("", "", some "nil config"), [Step.inCluster]))
    ∧ (envC8nilClientset.inClusterConfig = (some ⟨1⟩, none)
      ∧ envC8nilClientset.newForConfig (some ⟨1⟩) = (none, none)
      ∧ PodList envC8nilClientset "default" none
        = (("", "", some "nil clientset"), [Step.inCluster, Step.newForConfig])) :=
  ⟨⟨rfl, ((C8_nil_config_or_clientset_fail_fast envC8nilConfig "default" none).1 rfl).1⟩,
   ⟨rfl, rfl,
    ((C8_nil_config_or_clientset_fail_fast envC8nilClientset "default" none).2
      ⟨1⟩ rfl rfl).1⟩⟩

/-- The resolver trace holds only discovery steps, in one of two shapes. -/
theorem config_trace_shape (env : Env) :
    (GetClusterClientConfig env).2 = [Step.inCluster]
    ∨ ∃ p, (GetClusterClientConfig env).2 = [Step.inCluster, Step.buildConfig p] := by
  rcases hic : env.inClusterConfig with ⟨oc, oe⟩
  cases oe with
  | none => exact Or.inl (by simp [GetClusterClientConfig, hic])
  | some e =>
    refine Or.inr ⟨goFilepathJoin [osGetenv env.home, ".kube", "config"], ?_⟩
    rcases hbc : env.buildConfigFromFlags ""
        (goFilepathJoin [osGetenv env.home, ".kube", "config"]) with ⟨c2, e2⟩
    cases e2 <;> simp [GetClusterClientConfig, hic, hbc]

/-- The clientset-factory trace is always the single constructor step. -/
theorem clientset_trace_shape (env : Env) (cfg : Option RestConfig) :
    (GetClientsetFromClusterConfig env cfg).2 = [Step.newForConfig] := by
  rcases hn : env.newForConfig cfg with ⟨a, b⟩
  cases b <;> simp [GetClientsetFromClusterConfig, hn]

/-- C1 (amended): the only context `PodList` ever hands to the streaming phase
is the fixed background context, whose cancellation signal never fires — there
is no caller-supplied cancellation path. -/
theorem C1_stream_context_is_background (env : Env) (ns : String)
    (stdin : Option String) (ctx : Context) (opts : StreamOptions)
    (h : Step.stream ctx opts ∈ (PodList env ns stdin).2) :
    ctx = contextBackground ∧ ctx.cancelled = false := by
  rcases hg : GetClusterClientConfig env with ⟨⟨oc, oe⟩, t1⟩
  have ht1 : Step.stream ctx opts ∉ t1 := by
    have hshape := config_trace_shape env
    rw [hg] at hshape
    rcases hshape with h1 | ⟨p, h1⟩ <;> simp only at h1 <;> subst h1 <;> simp
  cases oe with
  | some e =>
    simp only [PodList, hg] at h
    exact absurd h ht1
  | none =>
    cases oc with
    | none =>
      simp only [PodList, hg] at h
      exact absurd h ht1
    | some c =>
      rcases hcs : GetClientsetFromClusterConfig env (some c) with ⟨⟨ocs, oen⟩, t2⟩
      have ht2 : t2 = [Step.newForConfig] := by
        have := clientset_trace_shape env (some c)
        rw [hcs] at this
        exact this
      subst ht2
      cases oen with
      | some e2 =>
        simp [PodList, hg, hcs] at h
        exact absurd h ht1
      | none =>
        cases ocs with
        | none =>
          simp [PodList, hg, hcs] at h
          exact absurd h ht1
        | some cs =>
          cases hats : env.addToScheme with
          | some e3 =>
            simp [PodList, hg, hcs, hats] at h
            exact absurd h ht1
          | none =>
            rcases hspdy : env.newSPDYExecutor (some c) "GET"
                { method := "GET", resource := "pods", ns := ns } with ⟨oex, oesp⟩
            cases oesp with
            | some e4 =>
              simp [PodList, hg, hcs, hats, hspdy] at h
              exact absurd h ht1
            | none =>
              rcases hst : env.stream oex contextBackground
                  { stdin := stdin, tty := false } with ⟨so, se, oest⟩
              cases oest with
              | some e5 =>
                simp [PodList, hg, hcs, hats, hspdy, hst] at h
                rcases h with h | h
                · exact absurd h ht1
                · exact ⟨h.1, by rw [h.1]; rfl⟩
              | none =>
                simp [PodList, hg, hcs, hats, hspdy, hst] at h
                rcases h with h | h
                · exact absurd h ht1
                · exact ⟨h.1, by rw [h.1]; rfl⟩

/-- Witness for C1 (amended): a concrete run that reaches streaming does so
with the background context. -/
theorem C1_stream_context_is_background_witness :
    Step.stream contextBackground { stdin := none, tty := false }
        ∈ (PodList envHappy "default" none).2
    ∧ (contextBackground = contextBackground
        ∧ contextBackground.cancelled = false) :=
  ⟨by decide,
   C1_stream_context_is_background envHappy "default" none contextBackground
     { stdin := none, tty := false } (by decide)⟩

/-- C1 counterexample: a run whose underlying transport reports cancellation
has already entered the streaming phase (the stream step is in the trace), and
the error it returns is the uniform stream wrapper, not a distinct
cancellation error; the context driving the stream is the non-cancellable
background context. -/
theorem C1_no_cancelled_error_counterexample :
    (PodList envC1cancel "default" none).1
      = ("", "", some "error in Stream: context canceled")
    ∧ Step.stream contextBackground { stdin := none, tty := false }
        ∈ (PodList envC1cancel "default" none).2
    ∧ contextBackground.cancelled = false := by
  refine ⟨by decide, by decide, rfl⟩

/-- C2: evaluated at a run whose SPDY executor creation fails with a concrete
cause, `PodList` returns the message formatted from the stale nil `err`
variable — the underlying cause string does not occur in the returned error. -/
theorem C2_spdy_cause_swallowed_eval :
    (PodList envC2 "default" none).1
      = ("", "", some "error while creating Executor: <nil>")
    ∧ ¬ ("spdy upgrade rejected: tls handshake failure" : Err).data
        <:+: ("error while creating Executor: <nil>" : String).data := by
  refine ⟨by decide, by decide⟩

end AttestationController
